import Mathlib

/-!
Verification of the generation-with-fallback orchestrator of the text2viz
application (src/app.py): a shallow embedding of `run_lida_once`, `run_lida`,
`decode_raster` and the `gen_clicked` handler, together with proofs of the
spec's testable properties.
-/

set_option maxHeartbeats 1000000

namespace Text2Viz

/-- Errors raised by the external service, modelled as strings (the Python
exception message). -/
abbrev Err := String

/-- Equality of `Except` values is decidable when it is on both sides. -/
instance exceptDecEq {ε α : Type} [DecidableEq ε] [DecidableEq α] :
    DecidableEq (Except ε α) := fun a b =>
  match a, b with
  | Except.error e1, Except.error e2 =>
    if h : e1 = e2 then Decidable.isTrue (by rw [h])
    else Decidable.isFalse (fun hh => h (by cases hh; rfl))
  | Except.ok v1, Except.ok v2 =>
    if h : v1 = v2 then Decidable.isTrue (by rw [h])
    else Decidable.isFalse (fun hh => h (by cases hh; rfl))
  | Except.error _, Except.ok _ => Decidable.isFalse (fun hh => by cases hh)
  | Except.ok _, Except.error _ => Decidable.isFalse (fun hh => by cases hh)

/-- A Python runtime value as it can appear in the `raster` field of a
candidate and as input of `decode_raster`: `None`, a `bytes` object (a list of
byte values), a `str`, an `int`, or any other object (tagged). -/
inductive PyVal where
  | none
  | bytes (b : List Nat)
  | str (s : String)
  | int (n : Int)
  | other (tag : String)
deriving DecidableEq, Repr

/-- Python `x is None` test. -/
def PyVal.isNone : PyVal → Bool
  | .none => true
  | _ => false

/-! ### Model of the standard-library base64 decoder

`decode_raster` calls `base64.b64decode` (an external library).  We model it as
a strict padded base64 decoder: characters outside the alphabet and `=` are
discarded first (Python's `validate=False` behaviour), then the remaining
characters are decoded in quads, `=` padding allowed only at the very end.
`Option.none` models the `binascii.Error` the library raises on bad padding. -/

/-- The base64 alphabet value of a character, `Option.none` if the character is
not in the alphabet. -/
def b64val (c : Char) : Option Nat :=
  if 'A' ≤ c ∧ c ≤ 'Z' then some (c.toNat - 65)
  else if 'a' ≤ c ∧ c ≤ 'z' then some (c.toNat - 97 + 26)
  else if '0' ≤ c ∧ c ≤ '9' then some (c.toNat - 48 + 52)
  else if c = '+' then some 62
  else if c = '/' then some 63
  else Option.none

/-- The character encoding a 6-bit value. -/
def b64char (n : Nat) : Char :=
  "ABCDEFGHIJKLMNOPQRSTUVWXYZabcdefghijklmnopqrstuvwxyz0123456789+/".data.getD n 'A'

/-- Characters kept by the decoder before decoding (alphabet and padding). -/
def isB64Symbol (c : Char) : Bool := (b64val c).isSome || c = '='

/-- Decode a list of kept characters in quads; padding only at the end. -/
def decodeQuads : List Char → Option (List Nat)
  | [] => some []
  | c1 :: c2 :: c3 :: c4 :: rest =>
    match b64val c1, b64val c2 with
    | some v1, some v2 =>
      if c3 = '=' then
        if c4 = '=' ∧ rest = [] then some [v1 * 4 + v2 / 16] else Option.none
      else
        match b64val c3 with
        | some v3 =>
          if c4 = '=' then
            if rest = [] then some [v1 * 4 + v2 / 16, (v2 % 16) * 16 + v3 / 4]
            else Option.none
          else
            match b64val c4 with
            | some v4 =>
              (decodeQuads rest).map
                (fun bs => (v1 * 4 + v2 / 16) :: ((v2 % 16) * 16 + v3 / 4) ::
                  ((v3 % 4) * 64 + v4) :: bs)
            | Option.none => Option.none
        | Option.none => Option.none
    | _, _ => Option.none
  | _ => Option.none

/-- Model of `base64.b64decode` with `validate=False`: discard foreign
characters, then decode; `Option.none` models the raised `binascii.Error`. -/
def b64decode (s : String) : Option (List Nat) :=
  decodeQuads (s.data.filter isB64Symbol)

/-- Model of `base64.b64encode` restricted to byte values, producing the
character stream (used to state that valid base64 decodes to the bytes it
encodes). -/
def b64encode : List Nat → List Char
  | [] => []
  | [a] => [b64char (a / 4), b64char ((a % 4) * 16), '=', '=']
  | [a, b] => [b64char (a / 4), b64char ((a % 4) * 16 + b / 16), b64char ((b % 16) * 4), '=']
  | a :: b :: c :: rest =>
    b64char (a / 4) :: b64char ((a % 4) * 16 + b / 16) ::
      b64char ((b % 16) * 4 + c / 64) :: b64char (c % 64) :: b64encode rest

/-- Exception-explicit view of the library decoder: `Except.error` is the
`binascii.Error` raise. -/
def b64decode_exc (s : String) : Except Err (List Nat) :=
  match b64decode s with
  | some bs => Except.ok bs
  | Option.none => Except.error "binascii.Error"

/-- Embedding of `decode_raster` (src/app.py lines 170-177): `None` gives
`None`; `bytes` is returned unchanged; a `str` is base64-decoded with the
decode error caught and turned into `None`; everything else gives `None`. -/
def decode_raster (raster : PyVal) : Option (List Nat) :=
  match raster with
  | .none => Option.none
  | .bytes b => some b
  | .str s =>
    match b64decode_exc s with
    | Except.ok bs => some bs
    | Except.error _ => Option.none
  | .int _ => Option.none
  | .other _ => Option.none

/-- Exception-explicit execution of `decode_raster`: the only raising
sub-call (`base64.b64decode`) sits under the `try/except Exception` of the
source, so an `Except.error` result would mean an uncaught exception. -/
def decode_raster_run (raster : PyVal) : Except Err (Option (List Nat)) :=
  match raster with
  | .none => Except.ok Option.none
  | .bytes b => Except.ok (some b)
  | .str s =>
    match b64decode_exc s with
    | Except.ok bs => Except.ok (some bs)
    | Except.error _ => Except.ok Option.none
  | .int _ => Except.ok Option.none
  | .other _ => Except.ok Option.none

/-- Model of Python `str.strip()` (used at src/app.py line 240 to gate
generation): remove leading and trailing whitespace. -/
def pyStrip (s : String) : String :=
  String.mk (((s.data.dropWhile Char.isWhitespace).reverse.dropWhile Char.isWhitespace).reverse)

/-- The gate of the Generate button (src/app.py line 240): a file is uploaded
and the prompt is non-empty after stripping. -/
def can_generate (uploadedPresent : Bool) (prompt : String) : Bool :=
  uploadedPresent && (pyStrip prompt != "")

/-! ### The external visualization service

The LIDA `Manager` is an external collaborator; per the spec (§6, §9) it is a
capability boundary exposing `summarize` and `visualize`.  We model it as an
oracle: a pair of response functions.  Exceptions these calls may raise are
`Except.error` results.  Executions record a trace of the external calls
made, so call counts are properties of the trace. -/

/-- A dataset summary returned by the external `summarize` call (opaque). -/
structure Summary where
  desc : String
deriving DecidableEq, Repr

/-- The structured goal object built in `run_lida_once` (src/app.py 146-153). -/
structure Goal where
  question : String
  visualization : String
  rationale : String
deriving DecidableEq, Repr

/-- One chart result of the `visualize` call: `raster` is whatever
`getattr(c, "raster", None)` yields, `code` whatever `getattr(c, "code", "")`
yields. -/
structure Candidate where
  raster : PyVal
  code : String
deriving DecidableEq, Repr

/-- The external service oracle. -/
structure Manager where
  summarize : String → Except Err Summary
  visualize : Summary → Goal → String → Except Err (List Candidate)

/-- One recorded external service call. -/
inductive CallEvent where
  | summarizeCall (path : String)
  | visualizeCall (goal : Goal)
deriving DecidableEq, Repr

/-- Whether a call event is a `visualize` call. -/
def CallEvent.isVisualize : CallEvent → Bool
  | .visualizeCall _ => true
  | _ => false

/-- Number of `visualize` calls in a trace. -/
def countVisualize (t : List CallEvent) : Nat :=
  (t.filter CallEvent.isVisualize).length

/-- Number of `summarize` calls in a trace. -/
def countSummarize (t : List CallEvent) : Nat :=
  (t.filter (fun e => !e.isVisualize)).length

/-- The goal dictionary built in `run_lida_once` (src/app.py 146-153): the
question is the user goal verbatim, the other two fields are fixed strings. -/
def mkGoal (user_goal : String) : Goal :=
  { question := user_goal
    visualization :=
      "Generate one Matplotlib visualization that answers the question. " ++
      "If needed, transform data (filter, groupby, aggregation, resample weekly/monthly/quarterly)."
    rationale := "Briefly justify the chart and any transformations." }

/-- Embedding of `run_lida_once` (src/app.py 143-158).  A single attempt:
summarize the csv, visualize with the goal built from `user_goal`, and return
`(raster, code)` of the first candidate, `(None, "")` when there is no
candidate.  Exceptions of either call propagate.  The second component is the
trace of external calls made. -/
def run_lida_once (m : Manager) (csv_path user_goal : String) :
    Except Err (PyVal × String) × List CallEvent :=
  match m.summarize csv_path with
  | Except.error e => (Except.error e, [CallEvent.summarizeCall csv_path])
  | Except.ok summary =>
    match m.visualize summary (mkGoal user_goal) "matplotlib" with
    | Except.error e =>
      (Except.error e,
        [CallEvent.summarizeCall csv_path, CallEvent.visualizeCall (mkGoal user_goal)])
    | Except.ok charts =>
      match charts with
      | [] =>
        (Except.ok (PyVal.none, ""),
          [CallEvent.summarizeCall csv_path, CallEvent.visualizeCall (mkGoal user_goal)])
      | c :: _ =>
        (Except.ok (c.raster, c.code),
          [CallEvent.summarizeCall csv_path, CallEvent.visualizeCall (mkGoal user_goal)])

/-- The guided goal text of the second attempt (src/app.py 166). -/
def guidedPrompt (prompt : String) : String :=
  prompt ++ ". Perform any required transformations first, then render a single clear Matplotlib chart."

/-- Embedding of `run_lida` (src/app.py 160-168).  First attempt with the
prompt verbatim; when it yields a non-`None` raster, return it tagged
"primary".  Otherwise a second attempt with the guided prompt; its result is
tagged "fallback" when the raster is non-`None`, "none" otherwise.  Exceptions
of either attempt propagate. -/
def run_lida (m : Manager) (csv_path prompt : String) :
    Except Err (PyVal × String × String) × List CallEvent :=
  match run_lida_once m csv_path prompt with
  | (Except.error e, t1) => (Except.error e, t1)
  | (Except.ok (r, code), t1) =>
    if r.isNone then
      match run_lida_once m csv_path (guidedPrompt prompt) with
      | (Except.error e, t2) => (Except.error e, t1 ++ t2)
      | (Except.ok (r2, code2), t2) =>
        (Except.ok (r2, code2, if r2.isNone then "none" else "fallback"), t1 ++ t2)
    else
      (Except.ok (r, code, "primary"), t1)

/-! ### The click handler: loading, temp file, cleanup, decoding -/

/-- An uploaded CSV file, given by its lines. -/
structure CsvFile where
  lines : List String
deriving DecidableEq, Repr

/-- An in-memory table: named columns and rows of cells. -/
structure DataFrame where
  header : List String
  rows : List (List String)
deriving DecidableEq, Repr

/-- Pandas `df.empty`: no rows. -/
def DataFrame.empty (df : DataFrame) : Bool := df.rows.isEmpty

/-- Split a character list at commas, accumulating the current cell. -/
def splitCells : List Char → List Char → List String
  | [], acc => [String.mk acc.reverse]
  | c :: rest, acc =>
    if c = ',' then String.mk acc.reverse :: splitCells rest []
    else splitCells rest (c :: acc)

/-- Split one CSV line into cells. -/
def parseRow (line : String) : List String := splitCells line.data []

/-- Model of `pd.read_csv` for simple well-formed CSVs: blank lines are
skipped, the first remaining line is the header, each further line is a row. -/
def read_csv (f : CsvFile) : DataFrame :=
  match f.lines.filter (fun l => l != "") with
  | [] => { header := [], rows := [] }
  | h :: rest => { header := parseRow h, rows := rest.map parseRow }

/-- A file system: the set of existing paths. -/
structure FS where
  files : List String
deriving DecidableEq, Repr

/-- Creating a file (the `NamedTemporaryFile` + `to_csv` of src/app.py
266-268). -/
def FS.create (fs : FS) (p : String) : FS := ⟨p :: fs.files⟩

/-- Deleting a file (`os.unlink`, src/app.py 274). -/
def FS.unlink (fs : FS) (p : String) : FS := ⟨fs.files.filter (fun q => q != p)⟩

/-- Whether a path exists. -/
def FS.hasFile (fs : FS) (p : String) : Bool := fs.files.contains p

/-- What the result section renders for the user. -/
inductive UiOutcome where
  | emptyFileError
  | showImage (img : List Nat) (attemptLabel : String) (code : String)
  | noImageError
  | genericError (e : Err)
deriving DecidableEq, Repr

/-- Embedding of the `gen_clicked` result section (src/app.py 250-291) for a
CSV upload: load the dataframe; if it is empty, report the empty-file error
and stop; otherwise materialize the temp CSV (`tmpName`), call `run_lida`, on
normal return unlink the temp file and decode the raster; an exception from
`run_lida` jumps to the `except` handler of line 290, skipping the unlink of
line 274.  Returns the rendered outcome, the final file system, and the trace
of external calls. -/
def gen_clicked_flow (fs : FS) (tmpName : String) (m : Manager) (file : CsvFile)
    (prompt : String) : UiOutcome × FS × List CallEvent :=
  let df := read_csv file
  if df.empty then
    (UiOutcome.emptyFileError, fs, [])
  else
    let fs1 := fs.create tmpName
    match run_lida m tmpName prompt with
    | (Except.error e, tr) => (UiOutcome.genericError e, fs1, tr)
    | (Except.ok (raster, code, attemptLabel), tr) =>
      let fs2 := fs1.unlink tmpName
      match decode_raster raster with
      | some b => (UiOutcome.showImage b attemptLabel code, fs2, tr)
      | Option.none => (UiOutcome.noImageError, fs2, tr)

/-! ### Concrete service oracles used as test fixtures -/

/-- A service whose summarize succeeds and whose visualize always returns an
empty candidate list. -/
def mEmptyCharts : Manager :=
  { summarize := fun _ => Except.ok ⟨"summary"⟩
    visualize := fun _ _ _ => Except.ok [] }

/-- A service that returns one candidate with a raster on every visualize
call. -/
def mPrimary : Manager :=
  { summarize := fun _ => Except.ok ⟨"summary"⟩
    visualize := fun _ _ _ => Except.ok [{ raster := PyVal.bytes [1, 2], code := "plt.plot()" }] }

/-- A service that returns one candidate with a `None` raster but a non-empty
code snippet on every visualize call. -/
def mNullRaster : Manager :=
  { summarize := fun _ => Except.ok ⟨"summary"⟩
    visualize := fun _ _ _ => Except.ok [{ raster := PyVal.none, code := "plt.plot()" }] }

/-- A service whose summarize call raises. -/
def mRaise : Manager :=
  { summarize := fun _ => Except.error "service down"
    visualize := fun _ _ _ => Except.ok [] }

/-! ### Lemmas about the base64 model -/

/-- Decoding the character that encodes a 6-bit value recovers the value. -/
theorem b64val_b64char : ∀ n < 64, b64val (b64char n) = some n := by decide

/-- Alphabet characters are kept by the pre-decode filter. -/
theorem isB64Symbol_of_lt {n : Nat} (h : n < 64) : isB64Symbol (b64char n) = true := by
  simp [isB64Symbol, b64val_b64char n h]

/-- The padding character is kept by the pre-decode filter. -/
theorem isB64Symbol_pad : isB64Symbol '=' = true := by decide

/-- Alphabet characters are distinct from the padding character. -/
theorem b64char_ne_pad {n : Nat} (h : n < 64) : b64char n ≠ '=' := by
  intro hc
  have h1 := b64val_b64char n h
  rw [hc] at h1
  rw [show b64val '=' = Option.none from by decide] at h1
  exact Option.noConfusion h1

/-- Decoding the filtered encoding of a byte list recovers the list. -/
theorem decodeQuads_encode : ∀ bs : List Nat, (∀ x ∈ bs, x < 256) →
    decodeQuads ((b64encode bs).filter isB64Symbol) = some bs
  | [], _ => rfl
  | [a], h => by
    have ha : a < 256 := h a (by simp)
    have h1 : a / 4 < 64 := by omega
    have h2 : (a % 4) * 16 < 64 := by omega
    have hf : (b64encode [a]).filter isB64Symbol = b64encode [a] := by
      rw [List.filter_eq_self]
      intro x hx
      simp only [b64encode, List.mem_cons, List.not_mem_nil, or_false] at hx
      rcases hx with rfl | rfl | rfl | rfl
      · exact isB64Symbol_of_lt h1
      · exact isB64Symbol_of_lt h2
      · exact isB64Symbol_pad
      · exact isB64Symbol_pad
    rw [hf]
    show decodeQuads [b64char (a / 4), b64char ((a % 4) * 16), '=', '='] = some [a]
    simp only [decodeQuads, b64val_b64char _ h1, b64val_b64char _ h2]
    norm_num
    omega
  | [a, b], h => by
    have ha : a < 256 := h a (by simp)
    have hb : b < 256 := h b (by simp)
    have h1 : a / 4 < 64 := by omega
    have h2 : (a % 4) * 16 + b / 16 < 64 := by omega
    have h3 : (b % 16) * 4 < 64 := by omega
    have hf : (b64encode [a, b]).filter isB64Symbol = b64encode [a, b] := by
      rw [List.filter_eq_self]
      intro x hx
      simp only [b64encode, List.mem_cons, List.not_mem_nil, or_false] at hx
      rcases hx with rfl | rfl | rfl | rfl
      · exact isB64Symbol_of_lt h1
      · exact isB64Symbol_of_lt h2
      · exact isB64Symbol_of_lt h3
      · exact isB64Symbol_pad
    rw [hf]
    show decodeQuads
      [b64char (a / 4), b64char ((a % 4) * 16 + b / 16), b64char ((b % 16) * 4), '='] =
      some [a, b]
    simp only [decodeQuads, b64val_b64char _ h1, b64val_b64char _ h2, b64val_b64char _ h3]
    simp only [b64char_ne_pad h3, if_false]
    norm_num
    constructor <;> omega
  | a :: b :: c :: rest, h => by
    have ha : a < 256 := h a (by simp)
    have hb : b < 256 := h b (by simp)
    have hc : c < 256 := h c (by simp)
    have h1 : a / 4 < 64 := by omega
    have h2 : (a % 4) * 16 + b / 16 < 64 := by omega
    have h3 : (b % 16) * 4 + c / 64 < 64 := by omega
    have h4 : c % 64 < 64 := by omega
    have ih := decodeQuads_encode rest (by intro x hx; exact h x (by simp [hx]))
    show decodeQuads ((b64char (a / 4) :: b64char ((a % 4) * 16 + b / 16) ::
      b64char ((b % 16) * 4 + c / 64) :: b64char (c % 64) ::
      b64encode rest).filter isB64Symbol) = some (a :: b :: c :: rest)
    rw [List.filter_cons_of_pos (isB64Symbol_of_lt h1),
        List.filter_cons_of_pos (isB64Symbol_of_lt h2),
        List.filter_cons_of_pos (isB64Symbol_of_lt h3),
        List.filter_cons_of_pos (isB64Symbol_of_lt h4)]
    unfold decodeQuads
    simp only [b64val_b64char _ h1, b64val_b64char _ h2, b64val_b64char _ h3,
      b64val_b64char _ h4, if_neg (b64char_ne_pad h3), if_neg (b64char_ne_pad h4), ih,
      Option.map_some, Option.map_some', Option.some.injEq, List.cons.injEq]
    refine ⟨?_, ?_, ?_, trivial⟩ <;> omega

/-- Round trip: the model decoder recovers what the model encoder produced on
a list of byte values. -/
theorem b64_roundtrip (bs : List Nat) (h : ∀ x ∈ bs, x < 256) :
    b64decode (String.mk (b64encode bs)) = some bs := by
  show decodeQuads ((b64encode bs).filter isB64Symbol) = some bs
  exact decodeQuads_encode bs h

/-! ### Claims about `decode_raster` -/

/-- Claim C7: `decode_raster` returns a raw bytes value unchanged, decodes a
text value that is valid base64 (in particular, the encoding of any byte
list) to the corresponding bytes, yields `None` on a text value that is not
valid base64, and yields `None` on a `None` input. -/
theorem decode_raster_contract :
    decode_raster PyVal.none = Option.none ∧
    (∀ b : List Nat, decode_raster (PyVal.bytes b) = some b) ∧
    (∀ bs : List Nat, (∀ x ∈ bs, x < 256) →
      decode_raster (PyVal.str (String.mk (b64encode bs))) = some bs) ∧
    (∀ s bs, b64decode s = some bs → decode_raster (PyVal.str s) = some bs) ∧
    (∀ s, b64decode s = Option.none → decode_raster (PyVal.str s) = Option.none) := by
  refine ⟨rfl, fun b => rfl, ?_, ?_, ?_⟩
  · intro bs h
    simp [decode_raster, b64decode_exc, b64_roundtrip bs h]
  · intro s bs h
    simp [decode_raster, b64decode_exc, h]
  · intro s h
    simp [decode_raster, b64decode_exc, h]

/-- Witness for C7: concrete evaluations discharging each hypothesis — the
encoding of the bytes of "abc", the valid base64 text "YWJj", and the
invalid (incorrectly padded) text "YWJ". -/
theorem decode_raster_contract_witness :
    decode_raster (PyVal.str (String.mk (b64encode [97, 98, 99]))) = some [97, 98, 99] ∧
    decode_raster (PyVal.str "YWJj") = some [97, 98, 99] ∧
    decode_raster (PyVal.str "YWJ") = Option.none :=
  ⟨decode_raster_contract.2.2.1 [97, 98, 99] (by decide),
   decode_raster_contract.2.2.2.1 "YWJj" [97, 98, 99] (by decide),
   decode_raster_contract.2.2.2.2 "YWJ" (by decide)⟩

/-- Claim C8: `decode_raster` is total and deterministic: its exception-aware
execution never escapes with an error (the only raising sub-call sits under
the `try/except`), and on every input it agrees with the pure function
`decode_raster`, so two runs on the same input give the same output. -/
theorem decode_raster_total :
    ∀ v : PyVal, decode_raster_run v = Except.ok (decode_raster v) := by
  intro v
  cases v with
  | str s => cases h : b64decode_exc s <;> simp [decode_raster_run, decode_raster, h]
  | _ => rfl

/-- Claim C10: on an input that is neither `None` nor bytes nor text (a
number, a list, or any other object), `decode_raster` returns `None`. -/
theorem decode_raster_other :
    ∀ v : PyVal, v ≠ PyVal.none → (∀ b, v ≠ PyVal.bytes b) → (∀ s, v ≠ PyVal.str s) →
      decode_raster v = Option.none := by
  intro v h1 h2 h3
  cases v with
  | none => exact absurd rfl h1
  | bytes b => exact absurd rfl (h2 b)
  | str s => exact absurd rfl (h3 s)
  | int n => rfl
  | other t => rfl

/-- Witness for C10: the integer 7 is neither `None` nor bytes nor text, and
decodes to `None`. -/
theorem decode_raster_other_witness : decode_raster (PyVal.int 7) = Option.none :=
  decode_raster_other (PyVal.int 7) (by decide) (fun b h => by cases h) (fun s h => by cases h)

/-! ### Lemmas about the orchestrator -/

/-- An attempt whose summarize call raised: the error propagates, one call
recorded. -/
theorem run_lida_once_eq_error_sum {m : Manager} {csv g e : String}
    (h1 : m.summarize csv = Except.error e) :
    run_lida_once m csv g = (Except.error e, [CallEvent.summarizeCall csv]) := by
  unfold run_lida_once
  rw [h1]

/-- An attempt whose visualize call raised: the error propagates, both calls
recorded. -/
theorem run_lida_once_eq_error_viz {m : Manager} {csv g e : String} {s : Summary}
    (h1 : m.summarize csv = Except.ok s)
    (h2 : m.visualize s (mkGoal g) "matplotlib" = Except.error e) :
    run_lida_once m csv g =
      (Except.error e,
        [CallEvent.summarizeCall csv, CallEvent.visualizeCall (mkGoal g)]) := by
  unfold run_lida_once
  rw [h1]
  dsimp only
  rw [h2]

/-- An attempt that got no candidate: result `(None, "")`, both calls
recorded. -/
theorem run_lida_once_eq_nil {m : Manager} {csv g : String} {s : Summary}
    (h1 : m.summarize csv = Except.ok s)
    (h2 : m.visualize s (mkGoal g) "matplotlib" = Except.ok []) :
    run_lida_once m csv g =
      (Except.ok (PyVal.none, ""),
        [CallEvent.summarizeCall csv, CallEvent.visualizeCall (mkGoal g)]) := by
  unfold run_lida_once
  rw [h1]
  dsimp only
  rw [h2]

/-- An attempt that got candidates: result is the first candidate's raster and
code, both calls recorded. -/
theorem run_lida_once_eq_cons {m : Manager} {csv g : String} {s : Summary}
    {c : Candidate} {cs : List Candidate}
    (h1 : m.summarize csv = Except.ok s)
    (h2 : m.visualize s (mkGoal g) "matplotlib" = Except.ok (c :: cs)) :
    run_lida_once m csv g =
      (Except.ok (c.raster, c.code),
        [CallEvent.summarizeCall csv, CallEvent.visualizeCall (mkGoal g)]) := by
  unfold run_lida_once
  rw [h1]
  dsimp only
  rw [h2]

/-- One attempt records its summarize call, and its visualize call when the
summarize call returned. -/
theorem run_lida_once_trace (m : Manager) (csv g : String) :
    (run_lida_once m csv g).2 = [CallEvent.summarizeCall csv] ∨
    (run_lida_once m csv g).2 =
      [CallEvent.summarizeCall csv, CallEvent.visualizeCall (mkGoal g)] := by
  rcases h1 : m.summarize csv with e | s
  · rw [run_lida_once_eq_error_sum h1]
    left
    rfl
  rcases h2 : m.visualize s (mkGoal g) "matplotlib" with e | charts
  · rw [run_lida_once_eq_error_viz h1 h2]
    right
    rfl
  rcases charts with _ | ⟨c, cs⟩
  · rw [run_lida_once_eq_nil h1 h2]
    right
    rfl
  · rw [run_lida_once_eq_cons h1 h2]
    right
    rfl

/-- One attempt always makes at least the summarize call. -/
theorem run_lida_once_trace_ne (m : Manager) (csv g : String) :
    (run_lida_once m csv g).2 ≠ [] := by
  rcases run_lida_once_trace m csv g with h | h <;> simp [h]

/-- An attempt that returns normally made exactly one summarize and one
visualize call. -/
theorem run_lida_once_ok_trace {m : Manager} {csv g : String}
    {x : PyVal × String} (h : (run_lida_once m csv g).1 = Except.ok x) :
    (run_lida_once m csv g).2 =
      [CallEvent.summarizeCall csv, CallEvent.visualizeCall (mkGoal g)] := by
  rcases h1 : m.summarize csv with e | s
  · rw [run_lida_once_eq_error_sum h1] at h
    exact absurd h (by simp)
  rcases h2 : m.visualize s (mkGoal g) "matplotlib" with e | charts
  · rw [run_lida_once_eq_error_viz h1 h2] at h
    exact absurd h (by simp)
  rcases charts with _ | ⟨c, cs⟩
  · rw [run_lida_once_eq_nil h1 h2]
  · rw [run_lida_once_eq_cons h1 h2]

/-- Call counts of an attempt's trace are at most one of each kind. -/
theorem run_lida_once_counts (m : Manager) (csv g : String) :
    countSummarize (run_lida_once m csv g).2 ≤ 1 ∧
    countVisualize (run_lida_once m csv g).2 ≤ 1 ∧
    (run_lida_once m csv g).2.length ≤ 2 := by
  rcases run_lida_once_trace m csv g with h | h <;>
    simp [h, countSummarize, countVisualize, CallEvent.isVisualize]

/-- Counts are additive over trace concatenation. -/
theorem counts_append (t1 t2 : List CallEvent) :
    countSummarize (t1 ++ t2) = countSummarize t1 + countSummarize t2 ∧
    countVisualize (t1 ++ t2) = countVisualize t1 + countVisualize t2 := by
  simp [countSummarize, countVisualize, List.filter_append]

/-- A first attempt that raised: `run_lida` propagates the error and stops. -/
theorem run_lida_eq_err1 {m : Manager} {csv p e : String} {t1 : List CallEvent}
    (h : run_lida_once m csv p = (Except.error e, t1)) :
    run_lida m csv p = (Except.error e, t1) := by
  unfold run_lida
  rw [h]

/-- A first attempt with a non-`None` raster: `run_lida` stops, tagging the
result "primary". -/
theorem run_lida_eq_primary {m : Manager} {csv p : String} {r : PyVal}
    {code : String} {t1 : List CallEvent}
    (h : run_lida_once m csv p = (Except.ok (r, code), t1)) (hr : r.isNone = false) :
    run_lida m csv p = (Except.ok (r, code, "primary"), t1) := by
  unfold run_lida
  rw [h]
  dsimp only
  rw [hr]
  rfl

/-- A first attempt with a `None` raster and a second attempt that raised:
`run_lida` propagates the second error, traces concatenated. -/
theorem run_lida_eq_err2 {m : Manager} {csv p e c1 : String} {t1 t2 : List CallEvent}
    (h1 : run_lida_once m csv p = (Except.ok (PyVal.none, c1), t1))
    (h2 : run_lida_once m csv (guidedPrompt p) = (Except.error e, t2)) :
    run_lida m csv p = (Except.error e, t1 ++ t2) := by
  unfold run_lida
  rw [h1]
  dsimp only
  rw [if_pos (show PyVal.isNone PyVal.none = true from rfl), h2]

/-- A first attempt with a `None` raster and a second attempt with a
non-`None` raster: result tagged "fallback", traces concatenated. -/
theorem run_lida_eq_fallback {m : Manager} {csv p c1 c2 : String} {r2 : PyVal}
    {t1 t2 : List CallEvent}
    (h1 : run_lida_once m csv p = (Except.ok (PyVal.none, c1), t1))
    (h2 : run_lida_once m csv (guidedPrompt p) = (Except.ok (r2, c2), t2))
    (hr : r2.isNone = false) :
    run_lida m csv p = (Except.ok (r2, c2, "fallback"), t1 ++ t2) := by
  unfold run_lida
  rw [h1]
  dsimp only
  rw [if_pos (show PyVal.isNone PyVal.none = true from rfl), h2]
  dsimp only
  rw [hr]
  rfl

/-- Both attempts with a `None` raster: result tagged "none", carrying the
second attempt's code, traces concatenated. -/
theorem run_lida_eq_none {m : Manager} {csv p c1 c2 : String} {t1 t2 : List CallEvent}
    (h1 : run_lida_once m csv p = (Except.ok (PyVal.none, c1), t1))
    (h2 : run_lida_once m csv (guidedPrompt p) = (Except.ok (PyVal.none, c2), t2)) :
    run_lida m csv p = (Except.ok (PyVal.none, c2, "none"), t1 ++ t2) := by
  unfold run_lida
  rw [h1]
  dsimp only
  rw [if_pos (show PyVal.isNone PyVal.none = true from rfl), h2]
  rfl

/-- Counterexample for C1 as stated: with a service that yields no candidates
on either attempt, `run_lida` makes four external service calls in total (two
summarize and two visualize), which is more than two. -/
theorem run_lida_four_calls :
    (run_lida mEmptyCharts "data.csv" "plot revenue").2.length = 4 ∧
    countSummarize (run_lida mEmptyCharts "data.csv" "plot revenue").2 = 2 ∧
    countVisualize (run_lida mEmptyCharts "data.csv" "plot revenue").2 = 2 ∧
    ¬ (run_lida mEmptyCharts "data.csv" "plot revenue").2.length ≤ 2 := by decide

/-- Claim C1 (amended): for every service, csv path and question that is
non-empty after trimming, `run_lida` terminates with exactly one result; on
normal return the tag is one of "primary", "fallback", "none"; it makes at
most two summarize and at most two visualize calls — at most four external
service calls in total (not at most two: each of the at most two attempts
performs its own summarize call and its own visualize call). -/
theorem run_lida_bounded :
    ∀ (m : Manager) (csv p : String), pyStrip p ≠ "" →
      (∃ out, run_lida m csv p = out) ∧
      countSummarize (run_lida m csv p).2 ≤ 2 ∧
      countVisualize (run_lida m csv p).2 ≤ 2 ∧
      (run_lida m csv p).2.length ≤ 4 ∧
      (∀ (r : PyVal) (c tag : String), (run_lida m csv p).1 = Except.ok (r, c, tag) →
        tag = "primary" ∨ tag = "fallback" ∨ tag = "none") := by
  intro m csv p _
  have ct1 := run_lida_once_counts m csv p
  have ct2 := run_lida_once_counts m csv (guidedPrompt p)
  rcases h1 : run_lida_once m csv p with ⟨res1, t1⟩
  rw [h1] at ct1
  dsimp only at ct1
  cases res1 with
  | error e =>
    rw [run_lida_eq_err1 h1]
    dsimp only
    exact ⟨⟨_, rfl⟩, by omega, by omega, by omega, by intro r c tag h; cases h⟩
  | ok rc =>
    rcases rc with ⟨r, code⟩
    cases hr : r.isNone with
    | false =>
      rw [run_lida_eq_primary h1 hr]
      dsimp only
      refine ⟨⟨_, rfl⟩, by omega, by omega, by omega, ?_⟩
      intro r c tag h
      rw [show tag = "primary" by cases h; rfl]
      left
      rfl
    | true =>
      have hrn : r = PyVal.none := by cases r <;> simp_all [PyVal.isNone]
      subst hrn
      rcases h2 : run_lida_once m csv (guidedPrompt p) with ⟨res2, t2⟩
      rw [h2] at ct2
      dsimp only at ct2
      have lapp : (t1 ++ t2).length = t1.length + t2.length := List.length_append t1 t2
      have capp := counts_append t1 t2
      cases res2 with
      | error e =>
        rw [run_lida_eq_err2 h1 h2]
        dsimp only
        exact ⟨⟨_, rfl⟩, by omega, by omega, by omega, by intro r c tag h; cases h⟩
      | ok rc2 =>
        rcases rc2 with ⟨r2, c2⟩
        cases hr2 : r2.isNone with
        | false =>
          rw [run_lida_eq_fallback h1 h2 hr2]
          dsimp only
          refine ⟨⟨_, rfl⟩, by omega, by omega, by omega, ?_⟩
          intro r c tag h
          rw [show tag = "fallback" by cases h; rfl]
          right
          left
          rfl
        | true =>
          have hrn2 : r2 = PyVal.none := by cases r2 <;> simp_all [PyVal.isNone]
          subst hrn2
          rw [run_lida_eq_none h1 h2]
          dsimp only
          refine ⟨⟨_, rfl⟩, by omega, by omega, by omega, ?_⟩
          intro r c tag h
          rw [show tag = "none" by cases h; rfl]
          right
          right
          rfl

/-- Witness for C1 (amended): the bounds evaluated on a concrete service and
question. -/
theorem run_lida_bounded_witness :
    countSummarize (run_lida mEmptyCharts "data.csv" "plot revenue").2 ≤ 2 ∧
    countVisualize (run_lida mEmptyCharts "data.csv" "plot revenue").2 ≤ 2 ∧
    (run_lida mEmptyCharts "data.csv" "plot revenue").2.length ≤ 4 :=
  ⟨(run_lida_bounded mEmptyCharts "data.csv" "plot revenue" (by decide)).2.1,
   (run_lida_bounded mEmptyCharts "data.csv" "plot revenue" (by decide)).2.2.1,
   (run_lida_bounded mEmptyCharts "data.csv" "plot revenue" (by decide)).2.2.2.1⟩

/-- Claim C2: when the first attempt returns a candidate whose raster is not
`None`, the fallback is never performed: the result is that candidate's
raster and code tagged "primary", and the whole run made exactly one
summarize call and one visualize call. -/
theorem primary_no_fallback :
    ∀ (m : Manager) (csv p : String) (s : Summary) (c : Candidate) (cs : List Candidate),
      m.summarize csv = Except.ok s →
      m.visualize s (mkGoal p) "matplotlib" = Except.ok (c :: cs) →
      c.raster.isNone = false →
      run_lida m csv p =
        (Except.ok (c.raster, c.code, "primary"),
          [CallEvent.summarizeCall csv, CallEvent.visualizeCall (mkGoal p)]) ∧
      countSummarize (run_lida m csv p).2 = 1 ∧
      countVisualize (run_lida m csv p).2 = 1 := by
  intro m csv p s c cs h1 h2 hr
  have e2 := run_lida_eq_primary (run_lida_once_eq_cons h1 h2) hr
  refine ⟨e2, ?_, ?_⟩ <;> rw [e2] <;> rfl

/-- Witness for C2: a concrete service whose first visualize call yields a
candidate with raster bytes. -/
theorem primary_no_fallback_witness :
    run_lida mPrimary "d.csv" "q" =
      (Except.ok (PyVal.bytes [1, 2], "plt.plot()", "primary"),
        [CallEvent.summarizeCall "d.csv", CallEvent.visualizeCall (mkGoal "q")]) :=
  (primary_no_fallback mPrimary "d.csv" "q" ⟨"summary"⟩
    { raster := PyVal.bytes [1, 2], code := "plt.plot()" } [] rfl rfl rfl).1

/-- Claim C3: when the first attempt yields no candidate or a `None` raster,
the second attempt is invoked (its trace, never empty, extends the run's
trace) with the guided goal text, which strictly extends the original
question: the question plus a fixed non-empty guidance suffix. -/
theorem fallback_goal :
    ∀ (m : Manager) (csv p c1 : String) (t1 : List CallEvent),
      run_lida_once m csv p = (Except.ok (PyVal.none, c1), t1) →
      (run_lida m csv p).2 = t1 ++ (run_lida_once m csv (guidedPrompt p)).2 ∧
      (run_lida_once m csv (guidedPrompt p)).2 ≠ [] ∧
      (∃ suffix, suffix ≠ "" ∧ guidedPrompt p = p ++ suffix) := by
  intro m csv p c1 t1 h1
  refine ⟨?_, run_lida_once_trace_ne m csv (guidedPrompt p), ?_⟩
  · rcases h2 : run_lida_once m csv (guidedPrompt p) with ⟨res2, t2⟩
    cases res2 with
    | error e => rw [run_lida_eq_err2 h1 h2]
    | ok rc2 =>
      rcases rc2 with ⟨r2, c2⟩
      cases hr2 : r2.isNone with
      | false => rw [run_lida_eq_fallback h1 h2 hr2]
      | true =>
        have hrn2 : r2 = PyVal.none := by cases r2 <;> simp_all [PyVal.isNone]
        subst hrn2
        rw [run_lida_eq_none h1 h2]
  · exact ⟨". Perform any required transformations first, then render a single clear Matplotlib chart.",
      by decide, rfl⟩

/-- Witness for C3: a concrete service that yields no candidates on the first
attempt. -/
theorem fallback_goal_witness :
    (run_lida mEmptyCharts "d.csv" "q").2 =
      [CallEvent.summarizeCall "d.csv", CallEvent.visualizeCall (mkGoal "q")] ++
        (run_lida_once mEmptyCharts "d.csv" (guidedPrompt "q")).2 ∧
    (run_lida_once mEmptyCharts "d.csv" (guidedPrompt "q")).2 ≠ [] ∧
    (∃ suffix, suffix ≠ "" ∧ guidedPrompt "q" = "q" ++ suffix) :=
  fallback_goal mEmptyCharts "d.csv" "q" ""
    [CallEvent.summarizeCall "d.csv", CallEvent.visualizeCall (mkGoal "q")] rfl

/-- Counterexample for C4 as stated: a service whose candidates carry a
`None` raster but a non-empty code snippet makes both attempts complete
without an image, yet `run_lida` reports the failure with that non-empty code
snippet, not with an empty one. -/
theorem failure_code_counterexample :
    (run_lida mNullRaster "d.csv" "q").1 =
      Except.ok (PyVal.none, "plt.plot()", "none") ∧ "plt.plot()" ≠ "" := by decide

/-- Claim C4 (amended): when both attempts complete without producing an
image, `run_lida` reports the failure outcome: image `None` and tag "none".
The code snippet it carries is the second attempt's code — empty whenever
the second visualize call returned no candidates (as in the cited example
scenario), though not necessarily empty when a candidate carried code without
an image. -/
theorem failure_outcome :
    ∀ (m : Manager) (csv p c1 c2 : String) (t1 t2 : List CallEvent),
      run_lida_once m csv p = (Except.ok (PyVal.none, c1), t1) →
      run_lida_once m csv (guidedPrompt p) = (Except.ok (PyVal.none, c2), t2) →
      (run_lida m csv p).1 = Except.ok (PyVal.none, c2, "none") ∧
      (∀ s, m.summarize csv = Except.ok s →
        m.visualize s (mkGoal (guidedPrompt p)) "matplotlib" = Except.ok [] →
        c2 = "") := by
  intro m csv p c1 c2 t1 t2 h1 h2
  constructor
  · rw [run_lida_eq_none h1 h2]
  · intro s hs hv
    have hnil := run_lida_once_eq_nil hs hv
    rw [h2] at hnil
    simp only [Prod.mk.injEq, Except.ok.injEq] at hnil
    exact hnil.1.2

/-- Witness for C4 (amended): the failure outcome on a concrete service whose
candidates have a `None` raster. -/
theorem failure_outcome_witness :
    (run_lida mNullRaster "d.csv" "q").1 = Except.ok (PyVal.none, "plt.plot()", "none") :=
  (failure_outcome mNullRaster "d.csv" "q" "plt.plot()" "plt.plot()"
    [CallEvent.summarizeCall "d.csv", CallEvent.visualizeCall (mkGoal "q")]
    [CallEvent.summarizeCall "d.csv", CallEvent.visualizeCall (mkGoal (guidedPrompt "q"))]
    rfl rfl).1

/-- Claim C6: an exception of the external summarize or visualize call is not
caught inside `run_lida_once` or `run_lida`: the error of either attempt
becomes the error of the whole run, a summarize or visualize error becomes
the error of the attempt, and an error outcome is distinct from every normal
outcome (in particular from the no-image result). -/
theorem service_error_propagates :
    ∀ (m : Manager) (csv p e : String),
      ((run_lida_once m csv p).1 = Except.error e → (run_lida m csv p).1 = Except.error e) ∧
      (∀ c1, (run_lida_once m csv p).1 = Except.ok (PyVal.none, c1) →
        (run_lida_once m csv (guidedPrompt p)).1 = Except.error e →
        (run_lida m csv p).1 = Except.error e) ∧
      (m.summarize csv = Except.error e → (run_lida_once m csv p).1 = Except.error e) ∧
      (∀ s, m.summarize csv = Except.ok s →
        m.visualize s (mkGoal p) "matplotlib" = Except.error e →
        (run_lida_once m csv p).1 = Except.error e) ∧
      (∀ (r : PyVal) (c tag : String),
        (Except.error e : Except Err (PyVal × String × String)) ≠ Except.ok (r, c, tag)) := by
  intro m csv p e
  refine ⟨?_, ?_, ?_, ?_, ?_⟩
  · intro h
    rcases hp : run_lida_once m csv p with ⟨res1, t1⟩
    rw [hp] at h
    simp only at h
    subst h
    rw [run_lida_eq_err1 hp]
  · intro c1 h1 h2
    rcases hp1 : run_lida_once m csv p with ⟨res1, t1⟩
    rw [hp1] at h1
    simp only at h1
    subst h1
    rcases hp2 : run_lida_once m csv (guidedPrompt p) with ⟨res2, t2⟩
    rw [hp2] at h2
    simp only at h2
    subst h2
    rw [run_lida_eq_err2 hp1 hp2]
  · intro h
    rw [run_lida_once_eq_error_sum h]
  · intro s hs hv
    rw [run_lida_once_eq_error_viz hs hv]
  · intro r c tag h
    cases h

/-- Witness for C6: a concrete service whose summarize call raises; the error
reaches the caller of `run_lida`. -/
theorem service_error_propagates_witness :
    (run_lida mRaise "d.csv" "q").1 = Except.error "service down" :=
  (service_error_propagates mRaise "d.csv" "q" "service down").1 (by decide)

/-- Claim C9: a dataset that loads with zero rows is rejected (the empty-file
error is shown, no temp file is created, and no external call is made), while
a well-formed CSV with a header line and N non-empty data lines loads to a
DataFrame with exactly N rows and is not rejected. -/
theorem load_gate :
    ∀ (fs : FS) (tmp : String) (m : Manager) (p : String) (f : CsvFile),
      ((read_csv f).rows = [] →
        gen_clicked_flow fs tmp m f p = (UiOutcome.emptyFileError, fs, [])) ∧
      (∀ (header : String) (dataLines : List String),
        header ≠ "" → dataLines ≠ [] → (∀ l ∈ dataLines, l ≠ "") →
        (read_csv ⟨header :: dataLines⟩).rows.length = dataLines.length ∧
        (read_csv ⟨header :: dataLines⟩).empty = false) := by
  intro fs tmp m p f
  constructor
  · intro h
    simp [gen_clicked_flow, DataFrame.empty, h]
  · intro header dataLines hh hd hl
    have hf : (header :: dataLines).filter (fun l => l != "") = header :: dataLines := by
      rw [List.filter_eq_self]
      intro a ha
      simp only [bne_iff_ne, ne_eq, decide_eq_true_eq]
      rcases List.mem_cons.mp ha with rfl | ha2
      · exact hh
      · exact hl a ha2
    constructor
    · simp [read_csv, hf]
    · cases dataLines with
      | nil => exact absurd rfl hd
      | cons a as => simp [read_csv, hf, DataFrame.empty]

/-- Witness for C9: a header-only CSV is rejected with no generation attempt;
a two-row CSV yields two rows and is accepted. -/
theorem load_gate_witness :
    gen_clicked_flow ⟨[]⟩ "tmp.csv" mPrimary ⟨["a,b"]⟩ "q" =
      (UiOutcome.emptyFileError, ⟨[]⟩, []) ∧
    (read_csv ⟨["a,b", "1,2", "3,4"]⟩).rows.length = 2 ∧
    (read_csv ⟨["a,b", "1,2", "3,4"]⟩).empty = false :=
  ⟨(load_gate ⟨[]⟩ "tmp.csv" mPrimary "q" ⟨["a,b"]⟩).1 (by decide),
   ((load_gate ⟨[]⟩ "tmp.csv" mPrimary "q" ⟨["a,b"]⟩).2 "a,b" ["1,2", "3,4"]
     (by decide) (by decide) (by decide)).1,
   ((load_gate ⟨[]⟩ "tmp.csv" mPrimary "q" ⟨["a,b"]⟩).2 "a,b" ["1,2", "3,4"]
     (by decide) (by decide) (by decide)).2⟩

/-- Claim C5 is a code bug: the cleanup `os.unlink` of src/app.py line 274 is
not in a `finally` block, so when the external service raises, control jumps
from `run_lida` (line 271) straight to the `except` handler (line 290) and
the temp CSV file is left behind.  Evaluated here: with a raising service the
handler ends in the generic error outcome and the temp file still exists,
while on the success and no-image paths the temp file is deleted as the claim
says. -/
theorem temp_file_leak :
    ((gen_clicked_flow ⟨[]⟩ "tmp_x.csv" mRaise ⟨["a,b", "1,2"]⟩ "q").2.1.hasFile
        "tmp_x.csv" = true) ∧
    (gen_clicked_flow ⟨[]⟩ "tmp_x.csv" mRaise ⟨["a,b", "1,2"]⟩ "q").1 =
      UiOutcome.genericError "service down" ∧
    ((gen_clicked_flow ⟨[]⟩ "tmp_x.csv" mPrimary ⟨["a,b", "1,2"]⟩ "q").2.1.hasFile
        "tmp_x.csv" = false) ∧
    ((gen_clicked_flow ⟨[]⟩ "tmp_x.csv" mEmptyCharts ⟨["a,b", "1,2"]⟩ "q").2.1.hasFile
        "tmp_x.csv" = false) := by decide

end Text2Viz
